import Mathlib

/-!
# Verification of the Digital Journal classroom application

A shallow embedding of `src/app.py` (Flask route handlers and helper
functions) together with theorems settling the specification claims.

Conventions of the embedding:
* the database session is a `DB` record of lists of rows, passed and
  returned explicitly; handlers that can write return `Result × DB`;
* timestamps (`created_at`, `due_date`, `datetime.now()`) are `Nat`;
* text bodies that get sliced (`log.content`, `assignment.description`)
  are `List Char`, matching Python's character-indexed strings;
* `werkzeug.secure_filename` is external and modelled as the identity on
  the file name; the `datetime.now().strftime` timestamp prefix of stored
  file names is a `String` parameter;
* Python's `float(x)` on a string (which raises `ValueError` on a
  non-numeric string) is a `parseFloat : String → Option ℚ` parameter;
  grades (`db.Numeric(5,2)`) are `ℚ`;
* SQL `order_by` is modelled with `List.insertionSort`.
-/

namespace DigitalJournal

/-! ## Data model (the SQLAlchemy models of app.py) -/

structure User where
  id : Nat
  username : String
  email : String
  role : String
  full_name : String
  profile_picture : Option String := none
  deriving DecidableEq

structure Group where
  id : Nat
  name : String
  teacher_id : Nat
  join_password : String
  deriving DecidableEq

structure GroupMember where
  id : Nat
  group_id : Nat
  student_id : Nat
  deriving DecidableEq

structure LogEntry where
  id : Nat
  group_id : Nat
  student_id : Nat
  title : String
  content : List Char
  media_url : Option String := none
  created_at : Nat
  deriving DecidableEq

structure Assignment where
  id : Nat
  group_id : Nat
  teacher_id : Nat
  title : String
  description : List Char
  due_date : Nat
  deriving DecidableEq

structure Submission where
  id : Nat
  assignment_id : Nat
  student_id : Nat
  file_path : String
  grade : Option ℚ := none
  feedback : Option String := none
  deriving DecidableEq

structure DB where
  users : List User := []
  groups : List Group := []
  members : List GroupMember := []
  log_entries : List LogEntry := []
  assignments : List Assignment := []
  submissions : List Submission := []
  deriving DecidableEq

/-! ## Query helpers (`Model.query...first()` / `get`) -/

def findGroup (db : DB) (gid : Nat) : Option Group :=
  db.groups.find? (fun g => g.id == gid)

def findAssignment (db : DB) (aid : Nat) : Option Assignment :=
  db.assignments.find? (fun a => a.id == aid)

def findMembership (db : DB) (gid sid : Nat) : Option GroupMember :=
  db.members.find? (fun m => m.group_id == gid && m.student_id == sid)

def findSubmission (db : DB) (aid sid : Nat) : Option Submission :=
  db.submissions.find? (fun s => s.assignment_id == aid && s.student_id == sid)

def countMemberships (db : DB) (gid sid : Nat) : Nat :=
  (db.members.filter (fun m => m.group_id == gid && m.student_id == sid)).length

/-! ## Sorting (SQL `order_by(...asc())` / `(...desc())`) -/

def leKey {α : Type} (key : α → Nat) : α → α → Prop := fun x y => key x ≤ key y

def geKey {α : Type} (key : α → Nat) : α → α → Prop := fun x y => key y ≤ key x

instance {α : Type} (key : α → Nat) : DecidableRel (leKey key) :=
  fun x y => Nat.decLe (key x) (key y)

instance {α : Type} (key : α → Nat) : IsTotal α (leKey key) :=
  ⟨fun x y => Nat.le_total (key x) (key y)⟩

instance {α : Type} (key : α → Nat) : IsTrans α (leKey key) :=
  ⟨fun _ _ _ h h' => Nat.le_trans h h'⟩

instance {α : Type} (key : α → Nat) : DecidableRel (geKey key) :=
  fun x y => Nat.decLe (key y) (key x)

instance {α : Type} (key : α → Nat) : IsTotal α (geKey key) :=
  ⟨fun x y => Nat.le_total (key y) (key x)⟩

instance {α : Type} (key : α → Nat) : IsTrans α (geKey key) :=
  ⟨fun _ _ _ h h' => Nat.le_trans h' h⟩

def sortByKey {α : Type} (key : α → Nat) (l : List α) : List α :=
  List.insertionSort (leKey key) l

def sortByKeyDesc {α : Type} (key : α → Nat) (l : List α) : List α :=
  List.insertionSort (geKey key) l

/-! ## File upload helpers (`allowed_file`, `save_file`) -/

def ALLOWED_EXTENSIONS : List String :=
  ["png", "jpg", "jpeg", "gif", "pdf", "doc", "docx", "pptx"]

/-- Python `x.lower()` (strings are their character sequences here). -/
def lowerStr (s : String) : String :=
  ⟨s.toList.map Char.toLower⟩

/-- Python `sub in s` for a single character. -/
def strContainsChar (s : String) (c : Char) : Bool :=
  s.toList.contains c

/-- Python `s.endswith(suffix)`. -/
def strEndsWith (s suffix : String) : Bool :=
  suffix.toList.isSuffixOf s.toList

/-- `filename.rsplit('.', 1)[1]`: the part after the last dot. -/
def extAfterDot (filename : String) : String :=
  ⟨(filename.toList.reverse.takeWhile (fun c => c != '.')).reverse⟩

def allowed_file (filename : String) : Bool :=
  strContainsChar filename '.' &&
    ALLOWED_EXTENSIONS.contains (lowerStr (extAfterDot filename))

/-- `save_file(file, subfolder)`.  `file = none` models a missing/falsy file
object; `secure_filename` is modelled as the identity. -/
def save_file (file : Option String) (timestamp : String) (subfolder : String) :
    Option String :=
  match file with
  | none => none
  | some filename =>
    if filename != "" && allowed_file filename then
      some ("uploads/" ++ subfolder ++ "/" ++ timestamp ++ "_" ++ filename)
    else none

/-! ## `register` (POST branch) -/

structure RegForm where
  username : String
  email : String
  full_name : String
  password : String
  confirm_password : String
  role : Option String := none
  profile_file : Option String := none
  deriving DecidableEq

inductive RegResult where
  | passwordMismatch
  | usernameExists
  | emailExists
  | registered (user_id : Nat)
  deriving DecidableEq

/-- `file.filename.lower().endswith(('.png', '.jpg', '.jpeg', '.gif'))` -/
def isImageFilename (filename : String) : Bool :=
  strEndsWith (lowerStr filename) ".png" || strEndsWith (lowerStr filename) ".jpg" ||
    strEndsWith (lowerStr filename) ".jpeg" || strEndsWith (lowerStr filename) ".gif"

def register (form : RegForm) (timestamp : String) (newId : Nat) (db : DB) :
    RegResult × DB :=
  if form.password != form.confirm_password then (.passwordMismatch, db)
  else if (db.users.find? (fun u => u.username == form.username)).isSome then
    (.usernameExists, db)
  else if (db.users.find? (fun u => u.email == form.email)).isSome then
    (.emailExists, db)
  else
    let profile_picture : Option String :=
      match form.profile_file with
      | none => none
      | some filename =>
        if filename != "" && isImageFilename filename then
          some ("uploads/profiles/" ++ timestamp ++ "_" ++ filename)
        else none
    (.registered newId,
      { db with users := db.users ++
          [{ id := newId, username := form.username, email := form.email,
             role := form.role.getD "student", full_name := form.full_name,
             profile_picture := profile_picture }] })

/-! ## `join_group` (POST branch) -/

inductive JoinResult where
  | onlyStudents
  | emptyPassword
  | invalidPassword
  | alreadyMember (group_id : Nat)
  | joined (group_id : Nat)
  deriving DecidableEq

def join_group (cu : User) (password : String) (newId : Nat) (db : DB) :
    JoinResult × DB :=
  if cu.role != "student" then (.onlyStudents, db)
  else if password == "" then (.emptyPassword, db)
  else
    match db.groups.find? (fun g => g.join_password == password) with
    | none => (.invalidPassword, db)
    | some group =>
      if (findMembership db group.id cu.id).isSome then (.alreadyMember group.id, db)
      else (.joined group.id,
        { db with members := db.members ++ [⟨newId, group.id, cu.id⟩] })

/-! ## `view_group` -/

structure GroupView where
  group : Group
  log_entries : List LogEntry
  assignments : List Assignment
  members : List GroupMember
  deriving DecidableEq

inductive ViewGroupResult where
  | notFound
  | authFailure
  | ok (view : GroupView)
  deriving DecidableEq

def view_group (cu : User) (gid : Nat) (db : DB) : ViewGroupResult :=
  match findGroup db gid with
  | none => .notFound
  | some group =>
    if cu.role == "student" && (findMembership db gid cu.id).isNone then .authFailure
    else if cu.role == "teacher" && group.teacher_id != cu.id then .authFailure
    else .ok ⟨group,
      sortByKeyDesc LogEntry.created_at
        (db.log_entries.filter (fun l => l.group_id == gid)),
      sortByKey Assignment.due_date
        (db.assignments.filter (fun a => a.group_id == gid)),
      db.members.filter (fun m => m.group_id == gid)⟩

/-! ## `create_log` (POST branch) -/

inductive CreateLogResult where
  | onlyStudents
  | notAMember
  | created (log_id : Nat)
  deriving DecidableEq

def create_log (cu : User) (group_id : Nat) (title : String) (content : List Char)
    (media : Option String) (timestamp : String) (newId : Nat) (now : Nat)
    (db : DB) : CreateLogResult × DB :=
  if cu.role != "student" then (.onlyStudents, db)
  else if (findMembership db group_id cu.id).isNone then (.notAMember, db)
  else
    let media_url := save_file media timestamp "media"
    (.created newId,
      { db with log_entries := db.log_entries ++
          [⟨newId, group_id, cu.id, title, content, media_url, now⟩] })

/-! ## `submit_assignment` (POST branch) -/

inductive SubmitResult where
  | onlyStudents
  | assignmentNotFound
  | notAMember
  | duplicateSubmission
  | noFile
  | invalidFileType
  | submitted (submission_id : Nat)
  deriving DecidableEq

def submit_assignment (cu : User) (aid : Nat) (file : Option String)
    (timestamp : String) (newId : Nat) (db : DB) : SubmitResult × DB :=
  if cu.role != "student" then (.onlyStudents, db)
  else
    match findAssignment db aid with
    | none => (.assignmentNotFound, db)
    | some asg =>
      if (findMembership db asg.group_id cu.id).isNone then (.notAMember, db)
      else if (findSubmission db aid cu.id).isSome then (.duplicateSubmission, db)
      else
        match file with
        | none => (.noFile, db)
        | some filename =>
          if filename == "" then (.noFile, db)
          else
            match save_file (some filename) timestamp "submissions" with
            | none => (.invalidFileType, db)
            | some path =>
              (.submitted newId,
                { db with submissions := db.submissions ++
                    [⟨newId, aid, cu.id, path, none, none⟩] })

/-! ## `grade_assignment` -/

/-- A JSON value arriving as `data.get('grade')`. -/
inductive JVal where
  | jnull
  | jstr (s : String)
  | jnum (q : ℚ)
  deriving DecidableEq

/-- Python truthiness, as tested by `if grade and grade != '':`
(for these value shapes the extra `!= ''` test never changes the outcome). -/
def truthy : JVal → Bool
  | .jnull => false
  | .jstr s => s != ""
  | .jnum q => decide (q ≠ 0)

/-- `float(grade)`: `none` models a raised `ValueError`. -/
def asFloat (parseFloat : String → Option ℚ) : JVal → Option ℚ
  | .jnull => none
  | .jstr s => parseFloat s
  | .jnum q => some q

inductive GradeResult where
  | onlyTeachers
  | assignmentNotFound
  | internalError
  | notGroupTeacher
  | invalidRange
  | invalidFormat
  | submissionNotFound
  | updated
  deriving DecidableEq

/-- HTTP status code of each outcome of `grade_assignment`. -/
def statusOf : GradeResult → Nat
  | .onlyTeachers => 403
  | .assignmentNotFound => 404
  | .internalError => 500
  | .notGroupTeacher => 403
  | .invalidRange => 400
  | .invalidFormat => 400
  | .submissionNotFound => 404
  | .updated => 200

/-- `submission.grade = grade_value; submission.feedback = feedback` applied to the
first row matched by `filter_by(assignment_id=.., student_id=..).first()`. -/
def setGradeFirst (aid sid : Nat) (gv : Option ℚ) (fb : String) :
    List Submission → List Submission
  | [] => []
  | s :: rest =>
    if s.assignment_id == aid && s.student_id == sid then
      { s with grade := gv, feedback := some fb } :: rest
    else s :: setGradeFirst aid sid gv fb rest

def grade_assignment (parseFloat : String → Option ℚ) (cu : User) (aid : Nat)
    (student_id : Nat) (grade : JVal) (feedback : String) (db : DB) :
    GradeResult × DB :=
  if cu.role != "teacher" then (.onlyTeachers, db)
  else
    match findAssignment db aid with
    | none => (.assignmentNotFound, db)
    | some asg =>
      match findGroup db asg.group_id with
      | none => (.internalError, db)
      | some group =>
        if group.teacher_id != cu.id then (.notGroupTeacher, db)
        else
          let gv? : Except GradeResult (Option ℚ) :=
            if truthy grade then
              match asFloat parseFloat grade with
              | none => .error .invalidFormat
              | some q =>
                if q < 0 ∨ q > 100 then .error .invalidRange else .ok (some q)
            else .ok none
          match gv? with
          | .error e => (e, db)
          | .ok gv =>
            match findSubmission db aid student_id with
            | none => (.submissionNotFound, db)
            | some _ =>
              (.updated,
                { db with submissions :=
                    setGradeFirst aid student_id gv feedback db.submissions })

/-! ## Student dashboard read model -/

structure StudentDashboard where
  groups : List Group
  assignments : List Assignment
  submitted_assignment_ids : List Nat
  deriving DecidableEq

def student_dashboard (cu : User) (now : Nat) (db : DB) : StudentDashboard :=
  let group_ids :=
    (db.members.filter (fun m => m.student_id == cu.id)).map GroupMember.group_id
  let groups := db.groups.filter (fun g => group_ids.contains g.id)
  let assignments := db.assignments.filter
    (fun a => group_ids.contains a.group_id && now < a.due_date)
  let assignment_ids := assignments.map Assignment.id
  let submitted := db.submissions.filter
    (fun s => s.student_id == cu.id && assignment_ids.contains s.assignment_id)
  ⟨groups, assignments, submitted.map Submission.assignment_id⟩

/-- Modelled from the spec: the student dashboard template (not under `src/`)
renders the pending-assignments view by listing the assignments the handler
passed in whose id is not among `submitted_assignment_ids`. -/
def pending_assignments (cu : User) (now : Nat) (db : DB) : List Assignment :=
  let d := student_dashboard cu now db
  d.assignments.filter (fun a => !(d.submitted_assignment_ids.contains a.id))

/-! ## `get_timeline_data` -/

structure TimelineEvent where
  event_id : String
  content : String
  start : Nat
  eventType : String
  className : String
  title : String
  description : List Char
  deriving DecidableEq

def ellipsis : List Char := ['.', '.', '.']

/-- `x[:100] + '...' if len(x) > 100 else x` -/
def truncateDescription (s : List Char) : List Char :=
  if s.length > 100 then s.take 100 ++ ellipsis else s

def authorName (db : DB) (sid : Nat) : String :=
  match db.users.find? (fun u => u.id == sid) with
  | some u => u.full_name
  | none => ""

def logEvent (db : DB) (l : LogEntry) : TimelineEvent :=
  { event_id := "log_" ++ toString l.id
    content := l.title
    start := l.created_at
    eventType := "point"
    className := "log-entry"
    title := "By: " ++ authorName db l.student_id
    description := truncateDescription l.content }

def assignmentEvent (a : Assignment) : TimelineEvent :=
  { event_id := "assignment_" ++ toString a.id
    content := a.title
    start := a.due_date
    eventType := "point"
    className := "assignment"
    title := "Assignment Due"
    description := truncateDescription a.description }

inductive TimelineResult where
  | denied
  | ok (events : List TimelineEvent)
  deriving DecidableEq

def teacherOwnsGroup (cu : User) (gid : Nat) (db : DB) : Bool :=
  match findGroup db gid with
  | none => false
  | some g => g.teacher_id == cu.id

def get_timeline_data (cu : User) (gid : Nat) (db : DB) : TimelineResult :=
  if cu.role == "student" && (findMembership db gid cu.id).isNone then .denied
  else if cu.role == "teacher" && !(teacherOwnsGroup cu gid db) then .denied
  else
    let logs := sortByKey LogEntry.created_at
      (db.log_entries.filter (fun l => l.group_id == gid))
    let asgs := sortByKey Assignment.due_date
      (db.assignments.filter (fun a => a.group_id == gid))
    .ok (logs.map (logEvent db) ++ asgs.map assignmentEvent)

/-- The event list of a timeline response (empty when access was denied). -/
def eventsOf : TimelineResult → List TimelineEvent
  | .denied => []
  | .ok events => events

/-- The ordering property C1 asserts of the returned event list. -/
def dateAscending (events : List TimelineEvent) : Prop :=
  List.Chain' (fun e₁ e₂ => e₁.start ≤ e₂.start) events

def dateAscendingB : List TimelineEvent → Bool
  | [] => true
  | [_] => true
  | e₁ :: e₂ :: rest => decide (e₁.start ≤ e₂.start) && dateAscendingB (e₂ :: rest)

instance (events : List TimelineEvent) : Decidable (dateAscending events) :=
  decidable_of_iff (dateAscendingB events = true) (by
    induction events with
    | nil => simp [dateAscending, dateAscendingB]
    | cons e rest ih =>
      cases rest with
      | nil => simp [dateAscending, dateAscendingB]
      | cons e₂ rest₂ =>
        simp only [dateAscending, dateAscendingB, List.chain'_cons, Bool.and_eq_true,
          decide_eq_true_eq] at ih ⊢
        exact and_congr Iff.rfl ih)

/-! ## Concrete fixtures used by counterexamples and witnesses -/

/-- The spec's permitted set for the profiles category ("only image
extensions"), written from the spec's words for comparison with the code's
single `ALLOWED_EXTENSIONS` set. -/
def specProfileExtensions : List String := ["png", "jpg", "jpeg", "gif"]

def cexTeacher : User :=
  { id := 1, username := "t", email := "t@example.com", role := "teacher",
    full_name := "T" }

/-- A group holding one log entry created on day 10 and one assignment due on
day 5: the timeline emits the log event first, then the assignment event. -/
def cexDB : DB :=
  { users := [cexTeacher]
    groups := [{ id := 1, name := "G", teacher_id := 1, join_password := "pw" }]
    log_entries := [{ id := 1, group_id := 1, student_id := 1, title := "late log",
                      content := ['x'], created_at := 10 }]
    assignments := [{ id := 1, group_id := 1, teacher_id := 1, title := "early due",
                      description := ['y'], due_date := 5 }] }

def regFormW : RegForm :=
  { username := "mallory", email := "m@example.com", full_name := "Mallory",
    password := "pw", confirm_password := "pw", role := some "admin" }

def studentW : User :=
  { id := 2, username := "s", email := "s@example.com", role := "student",
    full_name := "S" }

def dbW : DB :=
  { users := [studentW]
    groups := [{ id := 1, name := "G", teacher_id := 1, join_password := "pw" }]
    members := [{ id := 1, group_id := 1, student_id := 2 }]
    assignments := [{ id := 1, group_id := 1, teacher_id := 1, title := "A",
                      description := ['d'], due_date := 10 }]
    submissions := [{ id := 1, assignment_id := 1, student_id := 2,
                      file_path := "uploads/submissions/f.pdf" }] }

def studentW5 : User :=
  { id := 3, username := "s5", email := "s5@example.com", role := "student",
    full_name := "S5" }

def groupW5 : Group :=
  { id := 7, name := "G7", teacher_id := 1, join_password := "secret7" }

def dbW5 : DB := { groups := [groupW5] }

def outsiderW : User :=
  { id := 9, username := "o", email := "o@example.com", role := "student",
    full_name := "O" }

def groupW6 : Group := { id := 4, name := "G4", teacher_id := 1, join_password := "p4" }

def dbW6 : DB := { groups := [groupW6] }

def teacherG : User :=
  { id := 1, username := "t", email := "t@example.com", role := "teacher",
    full_name := "T" }

def subG : Submission :=
  { id := 1, assignment_id := 1, student_id := 2,
    file_path := "uploads/submissions/f.pdf", grade := some 50 }

def dbG : DB :=
  { users := [teacherG]
    groups := [{ id := 1, name := "G", teacher_id := 1, join_password := "pw" }]
    members := [{ id := 1, group_id := 1, student_id := 2 }]
    assignments := [{ id := 1, group_id := 1, teacher_id := 1, title := "A",
                      description := ['d'], due_date := 10 }]
    submissions := [subG] }

def wStudent : User :=
  { id := 2, username := "w", email := "w@example.com", role := "student",
    full_name := "W" }

def wDB : DB :=
  { users := [wStudent]
    groups := [{ id := 1, name := "G", teacher_id := 1, join_password := "pw" }]
    members := [{ id := 1, group_id := 1, student_id := 2 }]
    log_entries := [{ id := 1, group_id := 1, student_id := 2, title := "w",
                      content := List.replicate 120 'a', created_at := 3 }] }

/-- The single event of `wDB`'s timeline. -/
def wEvent : TimelineEvent :=
  logEvent wDB { id := 1, group_id := 1, student_id := 2, title := "w",
                 content := List.replicate 120 'a', created_at := 3 }

/-! ## Helper lemmas -/

theorem find?_eq_of_unique {α : Type} (p : α → Bool) (l : List α) (a : α)
    (ha : a ∈ l) (hpa : p a = true) (huniq : ∀ b ∈ l, p b = true → b = a) :
    l.find? p = some a := by
  induction l with
  | nil => cases ha
  | cons x xs ih =>
    by_cases hx : p x = true
    · have hxa : x = a := huniq x (List.mem_cons_self x xs) hx
      subst hxa
      simp [List.find?_cons_of_pos _ hx]
    · have hax : a ∈ xs := by
        rcases List.mem_cons.mp ha with h | h
        · exact absurd (h ▸ hpa) hx
        · exact h
      rw [List.find?_cons_of_neg _ (by simpa using hx)]
      exact ih hax (fun b hb hpb => huniq b (List.mem_cons_of_mem x hb) hpb)

theorem find?_setGradeFirst (aid sid : Nat) (gv : Option ℚ) (fb : String) :
    ∀ l : List Submission,
      (setGradeFirst aid sid gv fb l).find?
          (fun s => s.assignment_id == aid && s.student_id == sid) =
        (l.find? (fun s => s.assignment_id == aid && s.student_id == sid)).map
          (fun s => { s with grade := gv, feedback := some fb })
  | [] => by simp [setGradeFirst]
  | s :: rest => by
    by_cases h : (s.assignment_id == aid && s.student_id == sid) = true
    · rw [setGradeFirst, if_pos h]
      have h' : ((fun s => s.assignment_id == aid && s.student_id == sid)
          ({ s with grade := gv, feedback := some fb } : Submission)) = true := by
        simpa using h
      rw [List.find?_cons_of_pos rest h', List.find?_cons_of_pos rest h]
      simp
    · rw [setGradeFirst, if_neg h]
      have h' : ¬ ((fun s => s.assignment_id == aid && s.student_id == sid) s = true) := h
      rw [List.find?_cons_of_neg (setGradeFirst aid sid gv fb rest) h',
        List.find?_cons_of_neg rest h']
      exact find?_setGradeFirst aid sid gv fb rest

theorem dateAscending_map_sortByKey {α : Type} (key : α → Nat) (f : α → TimelineEvent)
    (hf : ∀ x, (f x).start = key x) (l : List α) :
    dateAscending ((sortByKey key l).map f) := by
  unfold dateAscending
  rw [List.chain'_map]
  refine List.Pairwise.chain' ?_
  have hs : List.Sorted (leKey key) (sortByKey key l) :=
    List.sorted_insertionSort (leKey key) l
  exact hs.imp (fun hab => by simpa [leKey, hf] using hab)

theorem contains_map_iff {α : Type} (f : α → Nat) (l : List α) (x : Nat) :
    (l.map f).contains x = true ↔ ∃ a ∈ l, f a = x := by
  simp [List.contains_iff_exists_mem_beq]

theorem mem_dashboard_assignments (cu : User) (now : Nat) (db : DB) (a : Assignment) :
    a ∈ (student_dashboard cu now db).assignments ↔
      a ∈ db.assignments ∧
      (∃ m ∈ db.members, m.student_id = cu.id ∧ m.group_id = a.group_id) ∧
      now < a.due_date := by
  simp only [student_dashboard, List.mem_filter, Bool.and_eq_true, decide_eq_true_eq,
    contains_map_iff, beq_iff_eq, and_assoc]

theorem mem_submitted_ids (cu : User) (now : Nat) (db : DB) (x : Nat) :
    ((student_dashboard cu now db).submitted_assignment_ids.contains x) = true ↔
      ∃ s ∈ db.submissions, s.student_id = cu.id ∧ s.assignment_id = x ∧
        ∃ b ∈ (student_dashboard cu now db).assignments, b.id = x := by
  constructor
  · intro h
    obtain ⟨s, hs, hsx⟩ := (contains_map_iff _ _ _).mp h
    obtain ⟨hs', hq⟩ := List.mem_filter.mp hs
    have hq' : (s.student_id == cu.id) = true ∧
        ((List.map Assignment.id (student_dashboard cu now db).assignments).contains
          s.assignment_id) = true := by
      simpa [student_dashboard] using hq
    obtain ⟨hstu, hcand⟩ := hq'
    obtain ⟨b, hb, hbid⟩ := (contains_map_iff _ _ _).mp hcand
    exact ⟨s, hs', by simpa using hstu, hsx, b, hb, by rw [hbid, hsx]⟩
  · rintro ⟨s, hs, hstu, hsx, b, hb, hbx⟩
    refine (contains_map_iff _ _ _).mpr ⟨s, ?_, hsx⟩
    refine List.mem_filter.mpr ⟨hs, ?_⟩
    have hcand : ((List.map Assignment.id
        (student_dashboard cu now db).assignments).contains s.assignment_id) = true :=
      (contains_map_iff _ _ _).mpr ⟨b, hb, by rw [hbx, hsx]⟩
    simpa [student_dashboard, hstu] using hcand

/-! ## Claim C1 -/

/-- C1 (counterexample): the claim that `get_timeline_data` returns the merged
log/assignment events sorted ascending by date fails: with one log entry
created on day 10 and one assignment due on day 5, the returned list is the
log event followed by the assignment event, an adjacent pair with descending
dates. -/
theorem C1_counterexample :
    ¬ dateAscending (eventsOf (get_timeline_data cexTeacher 1 cexDB)) := by decide

/-- C1 (amended): `get_timeline_data` returns the log-entry events sorted
ascending by date followed by the assignment due-date events sorted ascending
by date; each of the two runs is internally sorted, but the concatenation as a
whole is not. -/
theorem C1_timeline_two_sorted_runs (cu : User) (gid : Nat) (db : DB)
    (events : List TimelineEvent)
    (h : get_timeline_data cu gid db = .ok events) :
    ∃ logPart asgPart,
      events = logPart ++ asgPart ∧
      dateAscending logPart ∧ dateAscending asgPart ∧
      (∀ e ∈ logPart, e.className = "log-entry") ∧
      (∀ e ∈ asgPart, e.className = "assignment") := by
  rw [get_timeline_data] at h
  split at h
  · exact absurd h (by simp)
  · split at h
    · exact absurd h (by simp)
    · have hev := (TimelineResult.ok.injEq _ _).mp h.symm
      refine ⟨_, _, hev, ?_, ?_, ?_, ?_⟩
      · exact dateAscending_map_sortByKey _ _ (fun x => rfl) _
      · exact dateAscending_map_sortByKey _ _ (fun x => rfl) _
      · intro e he
        obtain ⟨x, _, rfl⟩ := List.mem_map.mp he
        rfl
      · intro e he
        obtain ⟨x, _, rfl⟩ := List.mem_map.mp he
        rfl

/-- C1 (witness): the amended theorem applied to the concrete timeline of
`cexDB`. -/
theorem C1_witness :
    ∃ logPart asgPart,
      eventsOf (get_timeline_data cexTeacher 1 cexDB) = logPart ++ asgPart ∧
      dateAscending logPart ∧ dateAscending asgPart ∧
      (∀ e ∈ logPart, e.className = "log-entry") ∧
      (∀ e ∈ asgPart, e.className = "assignment") :=
  C1_timeline_two_sorted_runs cexTeacher 1 cexDB
    (eventsOf (get_timeline_data cexTeacher 1 cexDB)) rfl

/-! ## Claim C2 -/

/-- C2: for a grading request by the owning teacher on an existing submission,
`grade_assignment` rejects a non-numeric non-empty grade string with
InvalidGrade (HTTP 400), rejects a numeric grade outside `[0,100]` with
InvalidGrade (HTTP 400), clears the stored grade to `none` on an empty grade
string, and stores a numeric grade such as 87.5 exactly. -/
theorem C2_grade_validation (parseFloat : String → Option ℚ) (cu : User)
    (aid sid : Nat) (fb : String) (db : DB) (asg : Assignment) (grp : Group)
    (s : Submission)
    (hrole : cu.role = "teacher")
    (hasg : findAssignment db aid = some asg)
    (hgrp : findGroup db asg.group_id = some grp)
    (hown : grp.teacher_id = cu.id)
    (hsub : findSubmission db aid sid = some s) :
    (∀ str, str ≠ "" → parseFloat str = none →
      grade_assignment parseFloat cu aid sid (.jstr str) fb db =
        (.invalidFormat, db) ∧ statusOf .invalidFormat = 400) ∧
    (∀ q : ℚ, q < 0 ∨ 100 < q →
      grade_assignment parseFloat cu aid sid (.jnum q) fb db =
        (.invalidRange, db) ∧ statusOf .invalidRange = 400) ∧
    ((grade_assignment parseFloat cu aid sid (.jstr "") fb db).1 = .updated ∧
      findSubmission (grade_assignment parseFloat cu aid sid (.jstr "") fb db).2
          aid sid = some { s with grade := none, feedback := some fb }) ∧
    ((grade_assignment parseFloat cu aid sid (.jnum 87.5) fb db).1 = .updated ∧
      findSubmission (grade_assignment parseFloat cu aid sid (.jnum 87.5) fb db).2
          aid sid = some { s with grade := some 87.5, feedback := some fb }) := by
  refine ⟨?_, ?_, ?_, ?_⟩
  · intro str hne hparse
    have ht : truthy (.jstr str) = true := by simpa [truthy] using hne
    refine ⟨?_, rfl⟩
    simp [grade_assignment, hrole, hasg, hgrp, hown, ht, asFloat, hparse]
  · intro q hq
    have hrange : q < 0 ∨ q > 100 := hq
    have hq0 : q ≠ 0 := by
      intro h0
      subst h0
      rcases hq with h | h
      · exact absurd h (by norm_num)
      · exact absurd h (by norm_num)
    have ht : truthy (.jnum q) = true := by simp [truthy, hq0]
    refine ⟨?_, rfl⟩
    simp [grade_assignment, hrole, hasg, hgrp, hown, ht, asFloat, if_pos hrange]
  · have ht : truthy (.jstr "") = false := by simp [truthy]
    constructor
    · simp [grade_assignment, hrole, hasg, hgrp, hown, ht, hsub]
    · have hsub' : db.submissions.find?
          (fun t => t.assignment_id == aid && t.student_id == sid) = some s := hsub
      simp only [grade_assignment, hrole, hasg, hgrp, hown, ht]
      simp [findSubmission, find?_setGradeFirst, hsub']
  · have ht : truthy (.jnum 87.5) = true := by
      simp [truthy]
      norm_num
    have hrange : ¬ ((87.5 : ℚ) < 0 ∨ (87.5 : ℚ) > 100) := by norm_num
    constructor
    · simp [grade_assignment, hrole, hasg, hgrp, hown, ht, asFloat, if_neg hrange, hsub]
    · have hsub' : db.submissions.find?
          (fun t => t.assignment_id == aid && t.student_id == sid) = some s := hsub
      simp only [grade_assignment, hrole, hasg, hgrp, hown, ht]
      simp [findSubmission, find?_setGradeFirst, hsub', asFloat, if_neg hrange]

/-- C2 (witness): the grading contract at a concrete teacher, assignment,
group and submission. -/
theorem C2_witness :
    (∀ str, str ≠ "" → (fun (_ : String) => (none : Option ℚ)) str = none →
      grade_assignment (fun _ => none) teacherG 1 2 (.jstr str) "fb" dbG =
        (.invalidFormat, dbG) ∧ statusOf .invalidFormat = 400) ∧
    (∀ q : ℚ, q < 0 ∨ 100 < q →
      grade_assignment (fun _ => none) teacherG 1 2 (.jnum q) "fb" dbG =
        (.invalidRange, dbG) ∧ statusOf .invalidRange = 400) ∧
    ((grade_assignment (fun _ => none) teacherG 1 2 (.jstr "") "fb" dbG).1 = .updated ∧
      findSubmission
          (grade_assignment (fun _ => none) teacherG 1 2 (.jstr "") "fb" dbG).2 1 2 =
        some { subG with grade := none, feedback := some "fb" }) ∧
    ((grade_assignment (fun _ => none) teacherG 1 2 (.jnum 87.5) "fb" dbG).1 = .updated ∧
      findSubmission
          (grade_assignment (fun _ => none) teacherG 1 2 (.jnum 87.5) "fb" dbG).2 1 2 =
        some { subG with grade := some 87.5, feedback := some "fb" }) :=
  C2_grade_validation (fun _ => none) teacherG 1 2 "fb" dbG
    { id := 1, group_id := 1, teacher_id := 1, title := "A",
      description := ['d'], due_date := 10 }
    { id := 1, name := "G", teacher_id := 1, join_password := "pw" }
    subG rfl rfl rfl rfl rfl

/-! ## Claim C3 -/

/-- C3 (counterexample): `save_file` accepts a `.pdf` upload into the
`profiles` category, although the claim says the profiles category permits
only image extensions; the permitted set does not differ per category. -/
theorem C3_counterexample :
    save_file (some "notes.pdf") "20240101_000000" "profiles" =
      some "uploads/profiles/20240101_000000_notes.pdf" ∧
    specProfileExtensions.contains (lowerStr (extAfterDot "notes.pdf")) = false := by
  decide

/-- C3 (amended): `save_file` rejects exactly when no file is given, the
filename is empty, or the extension fails `allowed_file` (the single global
set `ALLOWED_EXTENSIONS`); the accept/reject outcome is identical for every
category. -/
theorem C3_save_file_rejects_iff (file : Option String) (ts cat : String) :
    (save_file file ts cat = none ↔
      file = none ∨ file = some "" ∨ ∀ f, file = some f → allowed_file f = false) ∧
    (∀ cat₂ ts₂, (save_file file ts₂ cat₂ = none ↔ save_file file ts cat = none)) := by
  constructor
  · cases file with
    | none => simp [save_file]
    | some f =>
      simp only [save_file, Option.some.injEq, reduceCtorEq, false_or,
        forall_eq']
      by_cases hf : f = ""
      · subst hf; simp
      · by_cases ha : allowed_file f
        · simp [hf, ha]
        · simp [hf, ha]
  · intro cat₂ ts₂
    cases file with
    | none => simp [save_file]
    | some f =>
      by_cases hc : (f != "" && allowed_file f)
      · simp [save_file, hc]
      · simp [save_file, hc]

/-! ## Claim C4 -/

/-- C4: when a submission by the student for the assignment already exists, a
second `submit_assignment` call fails with DuplicateSubmission and leaves the
database (in particular the set of submissions) unchanged. -/
theorem C4_duplicate_submission (cu : User) (aid : Nat) (file : Option String)
    (ts : String) (newId : Nat) (db : DB) (asg : Assignment)
    (hrole : cu.role = "student")
    (hasg : findAssignment db aid = some asg)
    (hmem : (findMembership db asg.group_id cu.id).isSome = true)
    (hdup : (findSubmission db aid cu.id).isSome = true) :
    submit_assignment cu aid file ts newId db = (.duplicateSubmission, db) := by
  obtain ⟨m, hm⟩ := Option.isSome_iff_exists.mp hmem
  obtain ⟨s, hs⟩ := Option.isSome_iff_exists.mp hdup
  simp [submit_assignment, hrole, hasg, hm, hs]

/-- C4 (witness): a concrete member student who already submitted assignment 1
gets DuplicateSubmission and an unchanged database. -/
theorem C4_witness :
    submit_assignment studentW 1 (some "g.pdf") "ts" 2 dbW =
      (.duplicateSubmission, dbW) :=
  C4_duplicate_submission studentW 1 (some "g.pdf") "ts" 2 dbW
    { id := 1, group_id := 1, teacher_id := 1, title := "A",
      description := ['d'], due_date := 10 }
    rfl rfl (by decide) (by decide)

/-! ## Claim C5 -/

/-- C5: for a student presenting the join secret of a uniquely-matching group
with no existing membership, `join_group` creates exactly one membership row
for that (group, student) pair, and repeating the call reports AlreadyMember
and changes nothing. -/
theorem C5_join_group_idempotent (cu : User) (password : String) (id₁ id₂ : Nat)
    (db : DB) (g : Group)
    (hrole : cu.role = "student")
    (hpw : password ≠ "")
    (hg : g ∈ db.groups)
    (hgpw : g.join_password = password)
    (huniq : ∀ g' ∈ db.groups, g'.join_password = password → g' = g)
    (hnew : findMembership db g.id cu.id = none) :
    (join_group cu password id₁ db).1 = .joined g.id ∧
    countMemberships (join_group cu password id₁ db).2 g.id cu.id = 1 ∧
    join_group cu password id₂ (join_group cu password id₁ db).2 =
      (.alreadyMember g.id, (join_group cu password id₁ db).2) := by
  have hfind : db.groups.find? (fun g' => g'.join_password == password) = some g :=
    find?_eq_of_unique _ _ _ hg (by simpa using hgpw)
      (fun b hb hpb => huniq b hb (by simpa using hpb))
  have hfilter :
      db.members.filter (fun m => m.group_id == g.id && m.student_id == cu.id) = [] := by
    rw [List.filter_eq_nil_iff]
    intro m hm
    have := List.find?_eq_none.mp hnew m hm
    simpa using this
  have hstep : join_group cu password id₁ db =
      (.joined g.id, { db with members := db.members ++ [⟨id₁, g.id, cu.id⟩] }) := by
    simp [join_group, hrole, hpw, hfind, hnew]
  refine ⟨by rw [hstep], ?_, ?_⟩
  · rw [hstep]
    simp [countMemberships, List.filter_append, hfilter]
  · rw [hstep]
    have hmem2 : (findMembership
        { db with members := db.members ++ [⟨id₁, g.id, cu.id⟩] }
        g.id cu.id).isSome = true := by
      simp [findMembership, List.find?_append, hnew]
    simp [join_group, hrole, hpw, hfind, hmem2]

/-- C5 (witness): a concrete student joining group 7 with its secret once and
then again. -/
theorem C5_witness :
    (join_group studentW5 "secret7" 1 dbW5).1 = .joined groupW5.id ∧
    countMemberships (join_group studentW5 "secret7" 1 dbW5).2
        groupW5.id studentW5.id = 1 ∧
    join_group studentW5 "secret7" 2 (join_group studentW5 "secret7" 1 dbW5).2 =
      (.alreadyMember groupW5.id, (join_group studentW5 "secret7" 1 dbW5).2) :=
  C5_join_group_idempotent studentW5 "secret7" 1 2 dbW5 groupW5
    rfl (by decide) (by decide) rfl (by decide) rfl

/-! ## Claim C6 -/

/-- C6: a student holding no membership in an existing group receives an
authorization failure from the group view, the log-creation endpoint (with no
data change) and the timeline API. -/
theorem C6_student_without_membership_denied (cu : User) (gid : Nat) (db : DB)
    (g : Group)
    (hrole : cu.role = "student")
    (hg : findGroup db gid = some g)
    (hmem : findMembership db gid cu.id = none) :
    view_group cu gid db = .authFailure ∧
    (∀ title content media ts newId now,
      create_log cu gid title content media ts newId now db = (.notAMember, db)) ∧
    get_timeline_data cu gid db = .denied := by
  refine ⟨?_, ?_, ?_⟩
  · simp [view_group, hg, hrole, hmem]
  · intro title content media ts newId now
    simp [create_log, hrole, hmem]
  · simp [get_timeline_data, hrole, hmem]

/-- C6 (witness): a concrete non-member student denied on all three routes of
group 4. -/
theorem C6_witness :
    view_group outsiderW 4 dbW6 = .authFailure ∧
    (∀ title content media ts newId now,
      create_log outsiderW 4 title content media ts newId now dbW6 =
        (.notAMember, dbW6)) ∧
    get_timeline_data outsiderW 4 dbW6 = .denied :=
  C6_student_without_membership_denied outsiderW 4 dbW6 groupW6 rfl rfl rfl

/-! ## Claim C7 -/

/-- C7: every event `get_timeline_data` returns takes its description from the
content of a log entry or the description of an assignment of the group; when
that source exceeds 100 characters the event description is its first 100
characters followed by `...` (length 103), otherwise it is the source
unchanged. -/
theorem C7_timeline_truncation (cu : User) (gid : Nat) (db : DB)
    (events : List TimelineEvent)
    (h : get_timeline_data cu gid db = .ok events) :
    ∀ e ∈ events, ∃ src : List Char,
      ((∃ l ∈ db.log_entries, l.group_id = gid ∧ src = l.content) ∨
        (∃ a ∈ db.assignments, a.group_id = gid ∧ src = a.description)) ∧
      (100 < src.length →
        e.description = src.take 100 ++ ellipsis ∧ e.description.length = 103) ∧
      (src.length ≤ 100 → e.description = src) := by
  rw [get_timeline_data] at h
  split at h
  · exact absurd h (by simp)
  · split at h
    · exact absurd h (by simp)
    · have hev := (TimelineResult.ok.injEq _ _).mp h.symm
      subst hev
      intro e he
      rcases List.mem_append.mp he with hl | ha
      · obtain ⟨x, hx, rfl⟩ := List.mem_map.mp hl
        have hx' : x ∈ db.log_entries.filter (fun l => l.group_id == gid) :=
          (List.mem_insertionSort (leKey LogEntry.created_at)).mp hx
        obtain ⟨hxe, hxg⟩ := List.mem_filter.mp hx'
        refine ⟨x.content, Or.inl ⟨x, hxe, by simpa using hxg, rfl⟩, ?_, ?_⟩
        · intro hlen
          constructor
          · show truncateDescription x.content = _
            rw [truncateDescription, if_pos hlen]
          · show (truncateDescription x.content).length = 103
            rw [truncateDescription, if_pos hlen]
            simp [ellipsis]
            omega
        · intro hlen
          show truncateDescription x.content = _
          rw [truncateDescription, if_neg (by omega)]
      · obtain ⟨x, hx, rfl⟩ := List.mem_map.mp ha
        have hx' : x ∈ db.assignments.filter (fun a => a.group_id == gid) :=
          (List.mem_insertionSort (leKey Assignment.due_date)).mp hx
        obtain ⟨hxe, hxg⟩ := List.mem_filter.mp hx'
        refine ⟨x.description, Or.inr ⟨x, hxe, by simpa using hxg, rfl⟩, ?_, ?_⟩
        · intro hlen
          constructor
          · show truncateDescription x.description = _
            rw [truncateDescription, if_pos hlen]
          · show (truncateDescription x.description).length = 103
            rw [truncateDescription, if_pos hlen]
            simp [ellipsis]
            omega
        · intro hlen
          show truncateDescription x.description = _
          rw [truncateDescription, if_neg (by omega)]

set_option maxRecDepth 10000 in
/-- C7 (witness): the truncation property at the concrete event of `wDB`'s
timeline, whose source log entry has a 120-character body. -/
theorem C7_witness :
    ∃ src : List Char,
      ((∃ l ∈ wDB.log_entries, l.group_id = 1 ∧ src = l.content) ∨
        (∃ a ∈ wDB.assignments, a.group_id = 1 ∧ src = a.description)) ∧
      (100 < src.length →
        wEvent.description = src.take 100 ++ ellipsis ∧
          wEvent.description.length = 103) ∧
      (src.length ≤ 100 → wEvent.description = src) :=
  C7_timeline_truncation wStudent 1 wDB
    (eventsOf (get_timeline_data wStudent 1 wDB)) rfl wEvent (by decide)

/-! ## Claim C8 -/

/-- C8: the student dashboard's pending-assignments view contains exactly the
assignments of the student's groups whose due date is in the future and for
which the student has no submission. -/
theorem C8_pending_assignments (cu : User) (now : Nat) (db : DB) (a : Assignment) :
    a ∈ pending_assignments cu now db ↔
      a ∈ db.assignments ∧
      (∃ m ∈ db.members, m.student_id = cu.id ∧ m.group_id = a.group_id) ∧
      now < a.due_date ∧
      ¬ ∃ s ∈ db.submissions, s.student_id = cu.id ∧ s.assignment_id = a.id := by
  have hdash := mem_dashboard_assignments cu now db a
  constructor
  · intro h
    obtain ⟨hin, hnc⟩ := List.mem_filter.mp h
    obtain ⟨hA, hM, hD⟩ := hdash.mp hin
    refine ⟨hA, hM, hD, ?_⟩
    rintro ⟨s, hs, hstu, haid⟩
    have hc : ((student_dashboard cu now db).submitted_assignment_ids.contains a.id)
        = true :=
      (mem_submitted_ids cu now db a.id).mpr ⟨s, hs, hstu, haid, a, hin, rfl⟩
    rw [hc] at hnc
    simp at hnc
  · rintro ⟨hA, hM, hD, hnE⟩
    have hin : a ∈ (student_dashboard cu now db).assignments := hdash.mpr ⟨hA, hM, hD⟩
    refine List.mem_filter.mpr ⟨hin, ?_⟩
    have hcf : ((student_dashboard cu now db).submitted_assignment_ids.contains a.id)
        = false := by
      rw [Bool.eq_false_iff]
      intro hc
      obtain ⟨s, hs, hstu, hsx, _⟩ := (mem_submitted_ids cu now db a.id).mp hc
      exact hnE ⟨s, hs, hstu, hsx⟩
    simp [hcf]
    intro hmem
    have hct : (student_dashboard cu now db).submitted_assignment_ids.contains a.id
        = true := List.elem_iff.mpr hmem
    rw [hct] at hcf
    exact absurd hcf (by simp)

/-! ## Claim C9 -/

/-- C9: a grading request with the numeric grade value 0 is treated like an
empty grade because 0 is falsy: the stored grade is cleared to `none` rather
than set to 0. -/
theorem C9_grade_zero_cleared (parseFloat : String → Option ℚ) (cu : User)
    (aid sid : Nat) (fb : String) (db : DB) (asg : Assignment) (grp : Group)
    (s : Submission)
    (hrole : cu.role = "teacher")
    (hasg : findAssignment db aid = some asg)
    (hgrp : findGroup db asg.group_id = some grp)
    (hown : grp.teacher_id = cu.id)
    (hsub : findSubmission db aid sid = some s) :
    (grade_assignment parseFloat cu aid sid (.jnum 0) fb db).1 = .updated ∧
    findSubmission (grade_assignment parseFloat cu aid sid (.jnum 0) fb db).2
        aid sid = some { s with grade := none, feedback := some fb } := by
  have ht : truthy (.jnum 0) = false := by simp [truthy]
  constructor
  · simp [grade_assignment, hrole, hasg, hgrp, hown, ht, hsub]
  · have hsub' : db.submissions.find?
        (fun t => t.assignment_id == aid && t.student_id == sid) = some s := hsub
    simp only [grade_assignment, hrole, hasg, hgrp, hown, ht]
    simp [findSubmission, find?_setGradeFirst, hsub']

/-- C9 (witness): grading submission (1,2) with value 0 clears its stored
grade of 50 to `none`. -/
theorem C9_witness :
    (grade_assignment (fun _ => none) teacherG 1 2 (.jnum 0) "fb" dbG).1 = .updated ∧
    findSubmission
        (grade_assignment (fun _ => none) teacherG 1 2 (.jnum 0) "fb" dbG).2 1 2 =
      some { subG with grade := none, feedback := some "fb" } :=
  C9_grade_zero_cleared (fun _ => none) teacherG 1 2 "fb" dbG
    { id := 1, group_id := 1, teacher_id := 1, title := "A",
      description := ['d'], due_date := 10 }
    { id := 1, name := "G", teacher_id := 1, join_password := "pw" }
    subG rfl rfl rfl rfl rfl

/-! ## Claim C10 -/

/-- C10: a registration that passes the password and uniqueness checks stores
an account whose role is exactly the role supplied in the form (defaulting to
"student" when absent); no restriction is applied to the requested role. -/
theorem C10_register_role_unrestricted (form : RegForm) (ts : String) (newId : Nat)
    (db : DB)
    (hpw : form.password = form.confirm_password)
    (hu : ∀ u ∈ db.users, u.username ≠ form.username)
    (he : ∀ u ∈ db.users, u.email ≠ form.email) :
    ∃ u : User,
      register form ts newId db =
        (.registered newId, { db with users := db.users ++ [u] }) ∧
      u.role = form.role.getD "student" ∧
      u.username = form.username ∧ u.email = form.email := by
  have h1 : db.users.find? (fun u => u.username == form.username) = none := by
    rw [List.find?_eq_none]
    intro u hmem
    simpa using hu u hmem
  have h2 : db.users.find? (fun u => u.email == form.email) = none := by
    rw [List.find?_eq_none]
    intro u hmem
    simpa using he u hmem
  refine ⟨{ id := newId, username := form.username, email := form.email,
            role := form.role.getD "student", full_name := form.full_name,
            profile_picture :=
              match form.profile_file with
              | none => none
              | some filename =>
                if filename != "" && isImageFilename filename then
                  some ("uploads/profiles/" ++ ts ++ "_" ++ filename)
                else none }, ?_, rfl, rfl, rfl⟩
  simp [register, hpw, h1, h2]

/-- C10 (witness): an unauthenticated registrant requesting role "admin" on an
empty database gets an account stored with role "admin". -/
theorem C10_witness :
    ∃ u : User,
      register regFormW "20240101_000000" 1 {} =
        (.registered 1, { ({} : DB) with users := ({} : DB).users ++ [u] }) ∧
      u.role = regFormW.role.getD "student" ∧
      u.username = regFormW.username ∧ u.email = regFormW.email :=
  C10_register_role_unrestricted regFormW "20240101_000000" 1 {} rfl
    (by simp) (by simp)

end DigitalJournal
